import Mathlib

/-!
Shallow embedding of the pcapng reader/writer core (wiretap/pcapng.c) and
proofs about its block framing, section-header handling, packet readers,
tsresol decoding, string-option sizing/writing, and the sequential-read
loop's treatment of interface-statistics blocks.

Integers follow the C source: unsigned 16/32/64-bit quantities are Nat
reduced mod 2^w exactly where the C code stores into a fixed-width field or
where overflow can occur; casts to signed types (time_t, int) are made
explicit.  Stream reads are modelled by passing the values the C code would
have read (in host order, before any conditional byte swap), with Option
capturing read failure where the surrounding code distinguishes it.
-/

namespace Pcapng

/-- Truncation to an unsigned 32-bit value (storage into a guint32). -/
def U32 (x : Nat) : Nat := x % 4294967296

/-- Truncation to an unsigned 16-bit value (storage into a guint16). -/
def U16 (x : Nat) : Nat := x % 65536

/-- Byte swap of a 32-bit value, GUINT32_SWAP_LE_BE. -/
def GUINT32_SWAP_LE_BE (x : Nat) : Nat :=
  ((x % 256) * 256 + (x / 256 % 256)) * 65536 +
    ((x / 65536 % 256) * 256 + (x / 16777216 % 256))

/-- Byte swap of a 16-bit value, GUINT16_SWAP_LE_BE. -/
def GUINT16_SWAP_LE_BE (x : Nat) : Nat :=
  (x % 256) * 256 + (x / 256 % 256)

/-- Byte swap of a 64-bit value, GUINT64_SWAP_LE_BE. -/
def GUINT64_SWAP_LE_BE (x : Nat) : Nat :=
  GUINT32_SWAP_LE_BE (x / 4294967296) + GUINT32_SWAP_LE_BE (x % 4294967296) * 4294967296

/-- Conditional swap of a guint32 field: the byte-swapped branch applies
GUINT32_SWAP_LE_BE, the other branch copies the 32-bit value. -/
def cswap32 (swapped : Bool) (x : Nat) : Nat :=
  if swapped then GUINT32_SWAP_LE_BE x else U32 x

/-- Conditional swap of a guint16 field. -/
def cswap16 (swapped : Bool) (x : Nat) : Nat :=
  if swapped then GUINT16_SWAP_LE_BE x else U16 x

/-- Interpretation of an unsigned 64-bit value as a signed 64-bit integer
(the effect of the cast to time_t on the usual ILP32/LP64 targets). -/
def toSigned64 (x : Nat) : Int :=
  let r := x % 18446744073709551616
  if r < 9223372036854775808 then (r : Int) else (r : Int) - 18446744073709551616

/-- Interpretation of an unsigned value as a signed 32-bit int (the cast to
int applied to a guint64 expression). -/
def toSigned32 (x : Nat) : Int :=
  let r := x % 4294967296
  if r < 2147483648 then (r : Int) else (r : Int) - 4294967296

/-- Wiretap error codes set through the err out-parameter; only the codes
the embedded paths can produce are listed. -/
inductive WtapErr : Type
  | badFile        -- WTAP_ERR_BAD_FILE
  | unsupported    -- WTAP_ERR_UNSUPPORTED
  | shortRead      -- WTAP_ERR_SHORT_READ
  | nomem          -- ENOMEM
  deriving Repr, DecidableEq

/-- Block header as read from the stream: type and total length, both
32-bit, in host order before any conditional swap has been decided. -/
structure BlockHeader where
  block_type : Nat
  block_total_length : Nat
  deriving Repr, DecidableEq

/-- Per-interface data kept in the section interface table
(interface_info_t). -/
structure InterfaceInfo where
  wtap_encap : Int
  snap_len : Nat
  time_units_per_second : Nat
  tsprecision : Int
  fcslen : Int
  deriving Repr, DecidableEq

/-- Per-section reader state (section_info_t): byte order, version, and the
interface table indexed by interface id. -/
structure SectionInfo where
  byte_swapped : Bool
  version_major : Nat
  version_minor : Nat
  interfaces : List InterfaceInfo
  deriving Repr, DecidableEq

/-- Size of pcapng_block_header_t (two guint32 fields: block type and total
length), per the on-disk block frame layout. -/
def sizeof_block_header : Nat := 8

/-- MIN_BLOCK_SIZE: block header plus the 4-byte trailer length. -/
def MIN_BLOCK_SIZE : Nat := sizeof_block_header + 4

/-- Size of pcapng_section_header_block_t: magic u32, version u16 + u16,
section_length 8 bytes. -/
def sizeof_shb_fixed : Nat := 16

/-- MIN_SHB_SIZE: minimum block size plus the SHB fixed part. -/
def MIN_SHB_SIZE : Nat := MIN_BLOCK_SIZE + sizeof_shb_fixed

/-- Size of pcapng_enhanced_packet_block_t: five guint32 fields. -/
def sizeof_epb_fixed : Nat := 20

/-- MIN_EPB_SIZE: minimum block size plus the EPB fixed part. -/
def MIN_EPB_SIZE : Nat := MIN_BLOCK_SIZE + sizeof_epb_fixed

/-- Size of pcapng_packet_block_t: two guint16 and four guint32 fields. -/
def sizeof_pb_fixed : Nat := 20

/-- MIN_PB_SIZE: minimum block size plus the obsolete-PB fixed part. -/
def MIN_PB_SIZE : Nat := MIN_BLOCK_SIZE + sizeof_pb_fixed

/-- Size of pcapng_simple_packet_block_t: one guint32 field. -/
def sizeof_spb_fixed : Nat := 4

/-- MIN_SPB_SIZE: minimum block size plus the SPB fixed part. -/
def MIN_SPB_SIZE : Nat := MIN_BLOCK_SIZE + sizeof_spb_fixed

/-- Modelled from the spec: WTAP_MAX_PACKET_SIZE_DBUS is defined in wtap.h,
which is not among the provided sources; the reference value is 128 MiB
(the maximum D-Bus packet size named in the MAX_BLOCK_SIZE comment). -/
def WTAP_MAX_PACKET_SIZE_DBUS : Nat := 134217728

/-- MAX_BLOCK_SIZE: an EPB with a maximum-sized D-Bus packet and 128 KiB of
options. -/
def MAX_BLOCK_SIZE : Nat := MIN_EPB_SIZE + WTAP_MAX_PACKET_SIZE_DBUS + 131072

/-- Section Header Block type code 0x0A0D0D0A. -/
def BLOCK_TYPE_SHB : Nat := 0x0A0D0D0A

/-- Modelled from the spec: the standard block type codes handled by the
dispatch switch in pcapng_read_block; the numeric values come from the
on-disk format section of the specification (pcapng_module.h is not among
the provided sources).  Order follows the switch cases. -/
def dispatchedBlockTypes : List Nat :=
  [0x00000001,  -- BLOCK_TYPE_IDB
   0x00000002,  -- BLOCK_TYPE_PB
   0x00000003,  -- BLOCK_TYPE_SPB
   0x00000006,  -- BLOCK_TYPE_EPB
   0x00000004,  -- BLOCK_TYPE_NRB
   0x00000005,  -- BLOCK_TYPE_ISB
   0x0000000A,  -- BLOCK_TYPE_DSB
   0x00000204,  -- BLOCK_TYPE_SYSDIG_EVENT
   0x00000216,  -- BLOCK_TYPE_SYSDIG_EVENT_V2
   0x00000009]  -- BLOCK_TYPE_SYSTEMD_JOURNAL

/-- Padding after the packet data: bytes needed to bring cap_len to a
4-byte boundary. -/
def packetPadding (cap_len : Nat) : Nat :=
  if cap_len % 4 ≠ 0 then 4 - cap_len % 4 else 0

/-- Rounding a block total length up to a multiple of 4, as done by the
padding tolerance in pcapng_read_unknown_block, pcapng_read_packet_block
and pcapng_read_simple_packet_block. -/
def padTo4 (len : Nat) : Nat :=
  if len % 4 ≠ 0 then len + 4 - len % 4 else len

/-- Embeds pcapng_read_and_check_block_trailer: read the 4-byte second
block length (none models a failed read, which surfaces the read error),
byte-swap it if the section is byte-swapped, and demand equality with the
length from the block header. -/
def pcapng_read_and_check_block_trailer (bh : BlockHeader) (byte_swapped : Bool)
    (trailer_raw : Option Nat) : Except WtapErr Unit :=
  match trailer_raw with
  | none => .error .shortRead
  | some raw =>
    let block_total_length := if byte_swapped then GUINT32_SWAP_LE_BE raw else U32 raw
    if block_total_length ≠ bh.block_total_length then .error .badFile
    else .ok ()

/-- Embeds pcapng_read_unknown_block in the no-plugin-handler case: reject
lengths below MIN_BLOCK_SIZE, round the total length up to a multiple of 4,
and skip the body; bodyAvail is the number of body bytes the stream can
still deliver, a shortfall surfacing the read error. -/
def pcapng_read_unknown_block (bh : BlockHeader) (bodyAvail : Nat) :
    Except WtapErr Unit :=
  if bh.block_total_length < MIN_BLOCK_SIZE then .error .badFile
  else
    let block_total_length := padTo4 bh.block_total_length
    let block_read := block_total_length - MIN_BLOCK_SIZE
    if block_read ≤ bodyAvail then .ok () else .error .shortRead

/-- Embeds the pcapng_read_block path for a non-SHB block whose type is not
one of the dispatched standard types (the default switch case): swap the
pre-read header fields if the section is byte-swapped, enforce the
MAX_BLOCK_SIZE ceiling, skip the body via pcapng_read_unknown_block, then
read and check the block trailer.  Meaningful only when the decoded type is
neither BLOCK_TYPE_SHB nor a member of dispatchedBlockTypes. -/
def pcapng_read_block_unknown_type (byte_swapped : Bool)
    (btype_raw btl_raw : Nat) (bodyAvail : Nat) (trailer_raw : Option Nat) :
    Except WtapErr Unit :=
  let btype := cswap32 byte_swapped btype_raw
  let btl := cswap32 byte_swapped btl_raw
  if btl > MAX_BLOCK_SIZE then .error .badFile
  else
    match pcapng_read_unknown_block ⟨btype, btl⟩ bodyAvail with
    | .error e => .error e
    | .ok () => pcapng_read_and_check_block_trailer ⟨btype, btl⟩ byte_swapped trailer_raw

/-- Fixed part of a Section Header Block as read from the stream, in host
order before any byte swap: magic, the two version halves, and the 64-bit
section length. -/
structure ShbFixed where
  magic : Nat
  version_major : Nat
  version_minor : Nat
  section_length : Nat
  deriving Repr, DecidableEq

/-- Return status of pcapng_read_section_header_block, mirroring
block_return_val together with the err out-parameter and the data the
caller consumes on success: the (possibly swapped) block total length, the
populated section state, and the stored section length. -/
inductive ShbOutcome : Type
  | ok (block_total_length : Nat) (si : SectionInfo) (section_length : Nat)
  | notShb (errSet : WtapErr)
  | err (e : WtapErr)
  deriving Repr, DecidableEq

/-- Embeds pcapng_read_section_header_block: decode the byte-order magic in
on-disk order (0x1A2B3C4D native, 0x4D3C2B1A swapped — only then is the
header total length swapped; any other magic is PCAPNG_BLOCK_NOT_SHB with
err set to WTAP_ERR_BAD_FILE), then check MIN_SHB_SIZE and MAX_BLOCK_SIZE,
reject versions other than 1.0 and 1.2 with WTAP_ERR_UNSUPPORTED, store the
(conditionally swapped) section length, and run the option loop, whose
outcome is passed in as optLoop since its reads are external.  The returned
SectionInfo carries byte order and version; its interface table is created
empty by the caller. -/
def pcapng_read_section_header_block (btl_raw : Nat) (shb : ShbFixed)
    (optLoop : Except WtapErr Unit) : ShbOutcome :=
  let decoded : Option (Bool × Nat × Nat × Nat) :=
    if shb.magic = 0x1A2B3C4D then
      some (false, U16 shb.version_major, U16 shb.version_minor, U32 btl_raw)
    else if shb.magic = 0x4D3C2B1A then
      some (true, GUINT16_SWAP_LE_BE shb.version_major,
            GUINT16_SWAP_LE_BE shb.version_minor, GUINT32_SWAP_LE_BE btl_raw)
    else none
  match decoded with
  | none => .notShb .badFile
  | some (byte_swapped, version_major, version_minor, btl) =>
    if btl < MIN_SHB_SIZE then .err .badFile
    else if btl > MAX_BLOCK_SIZE then .err .badFile
    else if ¬(version_major = 1 ∧ (version_minor = 0 ∨ version_minor = 2)) then
      .err .unsupported
    else
      let section_length :=
        if byte_swapped then GUINT64_SWAP_LE_BE shb.section_length
        else shb.section_length % 18446744073709551616
      match optLoop with
      | .error e => .err e
      | .ok () =>
        .ok btl ⟨byte_swapped, version_major, version_minor, []⟩ section_length

/-- Result of the open probe, mirroring wtap_open_return_val for the part
of pcapng_open modelled here. -/
inductive OpenResult : Type
  | notMine                   -- WTAP_OPEN_NOT_MINE
  | openError (e : WtapErr)   -- WTAP_OPEN_ERROR
  | proceeding (block_total_length : Nat) (si : SectionInfo)
  deriving Repr, DecidableEq

/-- Embeds pcapng_open from the first block header through the switch on
pcapng_read_section_header_block: a first block whose type field is not
BLOCK_TYPE_SHB (same value in both byte orders, so compared unswapped) is
WTAP_OPEN_NOT_MINE; PCAPNG_BLOCK_NOT_SHB is WTAP_OPEN_NOT_MINE with err
cleared; PCAPNG_BLOCK_ERROR is WTAP_OPEN_NOT_MINE when the error is a
short read, otherwise WTAP_OPEN_ERROR; on PCAPNG_BLOCK_OK the open
proceeds with the first section state. -/
def pcapng_open_first_block (btype_raw btl_raw : Nat) (shb : ShbFixed)
    (optLoop : Except WtapErr Unit) : OpenResult :=
  if btype_raw ≠ BLOCK_TYPE_SHB then .notMine
  else
    match pcapng_read_section_header_block btl_raw shb optLoop with
    | .ok btl si _ => .proceeding btl si
    | .notShb _ => .notMine
    | .err e => if e = .shortRead then .notMine else .openError e

/-- G_MAXUINT64. -/
def G_MAXUINT64 : Nat := 18446744073709551616 - 1

/-- Embeds the OPT_IDB_TSRESOL case of the option switch in
pcapng_read_if_descr_block: with option length 1, bit 7 of the option byte
selects base 2 (set) or base 10 (clear) and the low 7 bits are the
exponent; in-range exponents (base 2: below 64, base 10: below 20) give
base^exponent via the multiply loop, out-of-range ones give G_MAXUINT64;
any other option length leaves time_units_per_second unchanged (default
1000000 established at function entry). -/
def pcapng_read_if_tsresol_option (option_length : Nat) (content0 : Nat)
    (time_units_per_second : Nat) : Nat :=
  if option_length = 1 then
    let if_tsresol := content0 % 256
    let base : Nat := if if_tsresol / 128 % 2 = 1 then 2 else 10
    let exponent := if_tsresol % 128
    if (base = 2 ∧ exponent < 64) ∨ (base = 10 ∧ exponent < 20) then
      base ^ exponent
    else G_MAXUINT64
  else time_units_per_second

/-- Decoded fixed part shared by EPB and PB handling (wtapng_packet_t). -/
structure WtapngPacket where
  interface_id : Nat
  drops_count : Nat
  ts_high : Nat
  ts_low : Nat
  cap_len : Nat
  packet_len : Nat
  deriving Repr, DecidableEq

/-- Raw fixed part of an Enhanced Packet Block (five guint32 fields in host
order before the conditional swap). -/
structure EpbFixed where
  interface_id : Nat
  timestamp_high : Nat
  timestamp_low : Nat
  captured_len : Nat
  packet_len : Nat
  deriving Repr, DecidableEq

/-- Raw fixed part of an obsolete Packet Block (guint16 interface id and
drops count, then four guint32 fields). -/
structure PbFixed where
  interface_id : Nat
  drops_count : Nat
  timestamp_high : Nat
  timestamp_low : Nat
  captured_len : Nat
  packet_len : Nat
  deriving Repr, DecidableEq

/-- Fixed part passed to pcapng_read_packet_block, tagged by the enhanced
flag the caller supplies. -/
inductive PacketFixed : Type
  | epb (f : EpbFixed)
  | pb (f : PbFixed)
  deriving Repr, DecidableEq

/-- Decode of the packet fixed part into wtapng_packet_t, applying the
section byte order; the EPB branch marks drops_count invalid by storing -1
into the guint16 field (65535). -/
def decodePacketFixed (byte_swapped : Bool) : PacketFixed → WtapngPacket
  | .epb f =>
    { interface_id := cswap32 byte_swapped f.interface_id
      drops_count := 65535
      ts_high := cswap32 byte_swapped f.timestamp_high
      ts_low := cswap32 byte_swapped f.timestamp_low
      cap_len := cswap32 byte_swapped f.captured_len
      packet_len := cswap32 byte_swapped f.packet_len }
  | .pb f =>
    { interface_id := cswap16 byte_swapped f.interface_id
      drops_count := cswap16 byte_swapped f.drops_count
      ts_high := cswap32 byte_swapped f.timestamp_high
      ts_low := cswap32 byte_swapped f.timestamp_low
      cap_len := cswap32 byte_swapped f.captured_len
      packet_len := cswap32 byte_swapped f.packet_len }

/-- Subtraction within guint32 arithmetic (used for caplen and len, which
subtract the pseudo-header length from 32-bit quantities). -/
def sub32 (a b : Nat) : Nat := (a % 4294967296 + 4294967296 - b % 4294967296) % 4294967296

/-- Fields of the returned packet record (wtap_rec) that the packet readers
populate and the claims consume. -/
structure PacketRec where
  interface_id : Nat
  pkt_encap : Int
  ts_secs : Int
  ts_nsecs : Int
  caplen : Nat
  len : Nat
  deriving Repr, DecidableEq

/-- Embeds pcapng_read_packet_block: minimum-size check for the variant,
decode of the fixed part with the section byte order, padding and
length-tolerance computation, block-big-enough check, interface-id bound
check against the section interface table, cap_len check against the
per-encapsulation maximum (an external collaborator, passed as a function
of the encapsulation), pseudo-header processing (external; none models a
failure, some n its length), record population, and timestamp assembly in
guint64 arithmetic with the time_t / int casts made explicit.  The reads
that follow record population (packet data, padding, option loop) only gate
success and are folded into rest; the option cases that can alter the
record do not touch the fields modelled here. -/
def pcapng_read_packet_block (bh : BlockHeader) (si : SectionInfo)
    (pf : PacketFixed) (max_snaplen_for_encap : Int → Nat)
    (pseudo_header_len : Option Nat) (rest : Except WtapErr Unit) :
    Except WtapErr PacketRec :=
  let minSize := match pf with | .epb _ => MIN_EPB_SIZE | .pb _ => MIN_PB_SIZE
  if bh.block_total_length < minSize then .error .badFile
  else
    let packet := decodePacketFixed si.byte_swapped pf
    let padding := packetPadding packet.cap_len
    let block_total_length := padTo4 bh.block_total_length
    if block_total_length < minSize + packet.cap_len + padding then .error .badFile
    else if h : packet.interface_id ≥ si.interfaces.length then .error .badFile
    else
      let iface_info := si.interfaces.get ⟨packet.interface_id, by omega⟩
      if packet.cap_len > max_snaplen_for_encap iface_info.wtap_encap then
        .error .badFile
      else
        match pseudo_header_len with
        | none => .error .shortRead
        | some phl =>
          let ts := packet.ts_high * 4294967296 + packet.ts_low
          let tups := iface_info.time_units_per_second
          let rec0 : PacketRec :=
            { interface_id := packet.interface_id
              pkt_encap := iface_info.wtap_encap
              ts_secs := toSigned64 (ts / tups)
              ts_nsecs := toSigned32 ((ts % tups) * 1000000000 % 18446744073709551616 / tups)
              caplen := sub32 packet.cap_len phl
              len := sub32 packet.packet_len phl }
          match rest with
          | .error e => .error e
          | .ok () => .ok rec0

/-- Result of a successful simple-packet-block read: the computed
wtapng_simple_packet_t lengths together with the populated record. -/
structure SpbResult where
  cap_len : Nat
  packet_len : Nat
  packetRec : PacketRec
  deriving Repr, DecidableEq

/-- Embeds pcapng_read_simple_packet_block: minimum-size check, the
at-least-one-interface requirement (an SPB before any IDB in the section is
WTAP_ERR_BAD_FILE), decode of packet_len with the section byte order,
captured length computed as packet_len clipped to interface 0's snap length
with snap_len 0 meaning no limit, padding and length tolerance, the
block-big-enough and per-encapsulation maximum checks, and record
population with interface id 0 and a zero timestamp.  The remaining reads
are folded into rest as in pcapng_read_packet_block. -/
def pcapng_read_simple_packet_block (bh : BlockHeader) (si : SectionInfo)
    (packet_len_raw : Nat) (max_snaplen_for_encap : Int → Nat)
    (pseudo_header_len : Option Nat) (rest : Except WtapErr Unit) :
    Except WtapErr SpbResult :=
  if bh.block_total_length < MIN_SPB_SIZE then .error .badFile
  else if hlen : si.interfaces.length = 0 then .error .badFile
  else
    let iface_info := si.interfaces.get ⟨0, by omega⟩
    let packet_len := cswap32 si.byte_swapped packet_len_raw
    let cap_len :=
      if packet_len > iface_info.snap_len ∧ iface_info.snap_len ≠ 0 then
        iface_info.snap_len
      else packet_len
    let padding := packetPadding cap_len
    let block_total_length := padTo4 bh.block_total_length
    if block_total_length < MIN_SPB_SIZE + cap_len + padding then .error .badFile
    else if cap_len > max_snaplen_for_encap iface_info.wtap_encap then .error .badFile
    else
      match pseudo_header_len with
      | none => .error .shortRead
      | some phl =>
        let rec0 : PacketRec :=
          { interface_id := 0
            pkt_encap := iface_info.wtap_encap
            ts_secs := 0
            ts_nsecs := 0
            caplen := sub32 cap_len phl
            len := sub32 packet_len phl }
        match rest with
        | .error e => .error e
        | .ok () => .ok ⟨cap_len, packet_len, rec0⟩

/-- Embeds pcapng_compute_option_string_size as a function of the string
byte length: the length is stored into a guint32 and masked with 0xffff,
then padded to a 4-byte boundary. -/
def pcapng_compute_option_string_size (strLen : Nat) : Nat :=
  let size := strLen % 4294967296 % 65536
  let pad := if size % 4 ≠ 0 then 4 - size % 4 else 0
  size + pad

/-- Embeds the string cases of compute_shb_option_size: the running block
size grows by the padded value size and, when that size is positive, by a
pad to 32 bits and the 4-byte option header. -/
def compute_shb_option_size_string (block_size : Nat) (strLen : Nat) : Nat :=
  let size := pcapng_compute_option_string_size strLen
  let bs := block_size + size
  if size > 0 then
    let bs2 := if bs % 4 ≠ 0 then bs + (4 - bs % 4) else bs
    bs2 + 4
  else bs

/-- Outcome of pcapng_write_option_string as a function of the string byte
length: whether the call reports success and how many bytes it adds to
bytes_dumped (option header, value, zero padding).  An empty string and a
string longer than 65535 bytes both return success having written nothing;
write failures of the underlying stream are not modelled, so the success
flag is always true here, kept to mirror the early returns. -/
def pcapng_write_option_string_bytes (strLen : Nat) : Bool × Nat :=
  if strLen = 0 then (true, 0)
  else if strLen > 65535 then (true, 0)
  else
    let pad := if strLen % 4 ≠ 0 then 4 - strLen % 4 else 0
    (true, 4 + strLen + pad)

/-- Fixed part of an Interface Statistics Block after the conditional byte
swap (wtapng_if_stats_mandatory_t). -/
structure IsbMand where
  interface_id : Nat
  ts_high : Nat
  ts_low : Nat
  deriving Repr, DecidableEq

/-- Outcome of one iteration of the pcapng_read loop for an internally
consumed block: the loop either continues with the next block or the read
fails; a delivered record breaks out of the loop instead. -/
inductive ReadLoopStep : Type
  | continueLoop
  | deliver
  | fail (e : WtapErr)
  deriving Repr, DecidableEq

/-- Embeds the BLOCK_TYPE_ISB arm of the switch in pcapng_read, with each
interface of wth's interface table represented by its list of attached
statistics entries: a statistics block whose interface id is not below the
table length is only logged and nothing is attached; otherwise the entry is
appended to that interface's statistics.  Either way the arm ends with
break and the surrounding while loop continues, since the ISB reader marked
the block internal. -/
def pcapng_read_process_isb (interface_data : List (List IsbMand))
    (if_stats : IsbMand) : ReadLoopStep × List (List IsbMand) :=
  if interface_data.length ≤ if_stats.interface_id then
    (.continueLoop, interface_data)
  else
    (.continueLoop,
     interface_data.set if_stats.interface_id
       (interface_data.getD if_stats.interface_id [] ++ [if_stats]))

/-! Theorems. -/

/-- Decidable equality for Except values, for evaluating the embedded
readers on concrete inputs. -/
instance exceptDecEq {ε α : Type} [DecidableEq ε] [DecidableEq α] :
    DecidableEq (Except ε α) := fun x y =>
  match x, y with
  | .ok a, .ok b =>
    if h : a = b then .isTrue (by rw [h]) else .isFalse (by simp [h])
  | .error e, .error f =>
    if h : e = f then .isTrue (by rw [h]) else .isFalse (by simp [h])
  | .ok _, .error _ => .isFalse (by simp)
  | .error _, .ok _ => .isFalse (by simp)

/-- Helper: the trailer check succeeds exactly when the conditionally
swapped trailer value equals the header total length. -/
theorem trailer_check_ok_iff (bh : BlockHeader) (byte_swapped : Bool)
    (raw : Nat) :
    pcapng_read_and_check_block_trailer bh byte_swapped (some raw) =
      .ok () ↔
    (if byte_swapped then GUINT32_SWAP_LE_BE raw else U32 raw) =
      bh.block_total_length := by
  unfold pcapng_read_and_check_block_trailer
  by_cases h : (if byte_swapped then GUINT32_SWAP_LE_BE raw else U32 raw) =
      bh.block_total_length <;> simp [h]

/-- C1: for every block read from a file, after the block body is consumed
the reader reads a 4-byte trailer length, byte-swaps it if the section is
byte-swapped, and fails with a bad-file error whenever the trailer value
differs from the block header's total length; the block is accepted only
when they are equal. -/
theorem C1_trailer_must_match_header (bh : BlockHeader) (byte_swapped : Bool)
    (raw : Nat) :
    (pcapng_read_and_check_block_trailer bh byte_swapped (some raw) = .ok () ↔
      (if byte_swapped then GUINT32_SWAP_LE_BE raw else U32 raw) =
        bh.block_total_length) ∧
    ((if byte_swapped then GUINT32_SWAP_LE_BE raw else U32 raw) ≠
        bh.block_total_length →
      pcapng_read_and_check_block_trailer bh byte_swapped (some raw) =
        .error .badFile) ∧
    (∀ (btype_raw btl_raw bodyAvail : Nat),
      pcapng_read_block_unknown_type byte_swapped btype_raw btl_raw bodyAvail
        (some raw) = .ok () →
      (if byte_swapped then GUINT32_SWAP_LE_BE raw else U32 raw) =
        cswap32 byte_swapped btl_raw) := by
  refine ⟨trailer_check_ok_iff bh byte_swapped raw, ?_, ?_⟩
  · intro h
    unfold pcapng_read_and_check_block_trailer
    simp [h]
  · intro btype_raw btl_raw bodyAvail h
    unfold pcapng_read_block_unknown_type at h
    dsimp only at h
    split at h
    · exact absurd h (by simp)
    · split at h
      · exact absurd h (by simp)
      · exact (trailer_check_ok_iff _ byte_swapped raw).mp h

/-- Witness for C1 at a concrete mismatching trailer. -/
theorem C1_trailer_must_match_header_witness :
    pcapng_read_and_check_block_trailer ⟨1, 17⟩ false (some 16) =
      .error .badFile :=
  (C1_trailer_must_match_header ⟨1, 17⟩ false 16).2.1 (by decide)

/-- C2 counterexample: a block whose total length 13 is not a multiple of 4
is accepted by the unknown-block path of pcapng_read_block (the length is
rounded up to 16 and the trailer compared against the original 13), so
non-multiple-of-4 lengths are tolerated, not rejected. -/
theorem C2_counterexample_length13_accepted :
    (0xDEADBEEF ∉ dispatchedBlockTypes ∧ 0xDEADBEEF ≠ BLOCK_TYPE_SHB ∧
      13 % 4 ≠ 0) ∧
    pcapng_read_block_unknown_type false 0xDEADBEEF 13 4 (some 13) =
      .ok () := by decide

/-- C2 amended: for every non-SHB block the reader enforces the
MAX_BLOCK_SIZE ceiling and a per-block-type minimum of at least
MIN_BLOCK_SIZE bytes, rejecting violations as bad-file, but a total length
that is not a multiple of 4 is not rejected: it is rounded up to the next
multiple of 4 and the block can be accepted. -/
theorem C2_amended_size_bounds (byte_swapped : Bool)
    (btype_raw btl_raw bodyAvail : Nat) (trailer_raw : Option Nat) :
    (cswap32 byte_swapped btl_raw > MAX_BLOCK_SIZE →
      pcapng_read_block_unknown_type byte_swapped btype_raw btl_raw bodyAvail
        trailer_raw = .error .badFile) ∧
    (cswap32 byte_swapped btl_raw < MIN_BLOCK_SIZE →
      pcapng_read_block_unknown_type byte_swapped btype_raw btl_raw bodyAvail
        trailer_raw = .error .badFile) ∧
    (pcapng_read_block_unknown_type byte_swapped btype_raw btl_raw bodyAvail
        trailer_raw = .ok () →
      MIN_BLOCK_SIZE ≤ cswap32 byte_swapped btl_raw ∧
        cswap32 byte_swapped btl_raw ≤ MAX_BLOCK_SIZE) ∧
    (∀ (bh : BlockHeader) (si : SectionInfo) (f : EpbFixed)
        (msfe : Int → Nat) (phl : Option Nat) (rest : Except WtapErr Unit),
      bh.block_total_length < MIN_EPB_SIZE →
      pcapng_read_packet_block bh si (.epb f) msfe phl rest =
        .error .badFile) ∧
    (∀ (bh : BlockHeader) (si : SectionInfo) (f : PbFixed)
        (msfe : Int → Nat) (phl : Option Nat) (rest : Except WtapErr Unit),
      bh.block_total_length < MIN_PB_SIZE →
      pcapng_read_packet_block bh si (.pb f) msfe phl rest =
        .error .badFile) ∧
    (∀ (bh : BlockHeader) (si : SectionInfo) (plen_raw : Nat)
        (msfe : Int → Nat) (phl : Option Nat) (rest : Except WtapErr Unit),
      bh.block_total_length < MIN_SPB_SIZE →
      pcapng_read_simple_packet_block bh si plen_raw msfe phl rest =
        .error .badFile) := by
  refine ⟨?_, ?_, ?_, ?_, ?_, ?_⟩
  · intro h
    unfold pcapng_read_block_unknown_type
    simp [h]
  · intro h
    have hle : MIN_BLOCK_SIZE ≤ MAX_BLOCK_SIZE := by decide
    have hmax : ¬ cswap32 byte_swapped btl_raw > MAX_BLOCK_SIZE := by omega
    unfold pcapng_read_block_unknown_type pcapng_read_unknown_block
    simp [hmax, h]
  · intro h
    unfold pcapng_read_block_unknown_type pcapng_read_unknown_block at h
    constructor
    · by_contra hlt
      simp only [not_le] at hlt
      by_cases hmax : cswap32 byte_swapped btl_raw > MAX_BLOCK_SIZE <;>
        simp [hmax, hlt] at h
    · by_contra hgt
      simp only [not_le] at hgt
      simp [show cswap32 byte_swapped btl_raw > MAX_BLOCK_SIZE from hgt] at h
  · intro bh si f msfe phl rest h
    unfold pcapng_read_packet_block
    simp [h]
  · intro bh si f msfe phl rest h
    unfold pcapng_read_packet_block
    simp [h]
  · intro bh si plen_raw msfe phl rest h
    unfold pcapng_read_simple_packet_block
    simp [h]

/-- Witness for C2 amended at a concrete oversized block. -/
theorem C2_amended_size_bounds_witness :
    pcapng_read_block_unknown_type false 0xDEADBEEF 999999999 0 none =
      .error .badFile :=
  (C2_amended_size_bounds false 0xDEADBEEF 999999999 0 none).1 (by decide)

/-- C3: when reading a section header block the magic field is interpreted
in on-disk byte order: 0x1A2B3C4D selects native byte order, 0x4D3C2B1A
selects swapped byte order and only then is the block total length
byte-swapped, and any other magic value causes the block to be rejected; on
the open path this rejection is reported as not-a-pcapng-file rather than
an error. -/
theorem C3_shb_magic_selects_byte_order (btl_raw : Nat) (shb : ShbFixed)
    (optLoop : Except WtapErr Unit) :
    (shb.magic = 0x1A2B3C4D →
      ∀ btl si slen,
        pcapng_read_section_header_block btl_raw shb optLoop =
          .ok btl si slen →
        si.byte_swapped = false ∧ btl = U32 btl_raw) ∧
    (shb.magic = 0x4D3C2B1A →
      ∀ btl si slen,
        pcapng_read_section_header_block btl_raw shb optLoop =
          .ok btl si slen →
        si.byte_swapped = true ∧ btl = GUINT32_SWAP_LE_BE btl_raw) ∧
    (shb.magic ≠ 0x1A2B3C4D → shb.magic ≠ 0x4D3C2B1A →
      pcapng_read_section_header_block btl_raw shb optLoop =
        .notShb .badFile ∧
      pcapng_open_first_block BLOCK_TYPE_SHB btl_raw shb optLoop =
        .notMine) := by
  refine ⟨?_, ?_, ?_⟩
  · intro hm btl si slen hok
    unfold pcapng_read_section_header_block at hok
    simp only [hm] at hok
    split at hok
    · exact absurd hok (by simp)
    · rename_i bs vmaj vmin btl0 heq
      simp at heq
      obtain ⟨h1, h2, h3, h4⟩ := heq
      subst h1
      subst h4
      split at hok
      · exact absurd hok (by simp)
      · split at hok
        · exact absurd hok (by simp)
        · split at hok
          · exact absurd hok (by simp)
          · split at hok
            · exact absurd hok (by simp)
            · injection hok with e1 e2 e3
              subst e2
              exact ⟨rfl, e1.symm⟩
  · intro hm btl si slen hok
    unfold pcapng_read_section_header_block at hok
    simp only [hm] at hok
    split at hok
    · exact absurd hok (by simp)
    · rename_i bs vmaj vmin btl0 heq
      simp at heq
      obtain ⟨h1, h2, h3, h4⟩ := heq
      subst h1
      subst h4
      split at hok
      · exact absurd hok (by simp)
      · split at hok
        · exact absurd hok (by simp)
        · split at hok
          · exact absurd hok (by simp)
          · split at hok
            · exact absurd hok (by simp)
            · injection hok with e1 e2 e3
              subst e2
              exact ⟨rfl, e1.symm⟩
  · intro hm1 hm2
    constructor
    · unfold pcapng_read_section_header_block
      simp [hm1, hm2]
    · unfold pcapng_open_first_block pcapng_read_section_header_block
      simp [hm1, hm2]

/-- Witness for C3 at a concrete byte-swapped section header. -/
theorem C3_shb_magic_selects_byte_order_witness :
    (SectionInfo.mk true 1 0 []).byte_swapped = true ∧
      28 = GUINT32_SWAP_LE_BE 469762048 :=
  (C3_shb_magic_selects_byte_order 469762048 ⟨0x4D3C2B1A, 256, 0, 0⟩
    (.ok ())).2.1 rfl 28 ⟨true, 1, 0, []⟩ 0 (by decide)

/-- C8 counterexample: a section header block with version 1.1 is rejected
with WTAP_ERR_UNSUPPORTED, which is a different error code from
WTAP_ERR_BAD_FILE, so the unsupported-version failure is not reported as a
bad-file (structural violation) error. -/
theorem C8_counterexample_version_error_code :
    pcapng_read_section_header_block 28 ⟨0x1A2B3C4D, 1, 1, 0⟩ (.ok ()) =
      .err .unsupported ∧
    WtapErr.unsupported ≠ WtapErr.badFile := by decide

/-- C8 amended: reading a section header block whose version is not 1.0
and not 1.2 fails, the failure being reported as WTAP_ERR_UNSUPPORTED
rather than bad-file; versions 1.0 and 1.2 are both accepted and treated
identically. -/
theorem C8_amended_version_check (btl_raw : Nat) (shb : ShbFixed)
    (optLoop : Except WtapErr Unit) :
    (shb.magic = 0x1A2B3C4D →
      MIN_SHB_SIZE ≤ U32 btl_raw → U32 btl_raw ≤ MAX_BLOCK_SIZE →
      (¬(U16 shb.version_major = 1 ∧
          (U16 shb.version_minor = 0 ∨ U16 shb.version_minor = 2)) →
        pcapng_read_section_header_block btl_raw shb optLoop =
          .err .unsupported) ∧
      (U16 shb.version_major = 1 →
        (U16 shb.version_minor = 0 ∨ U16 shb.version_minor = 2) →
        optLoop = .ok () →
        pcapng_read_section_header_block btl_raw shb optLoop =
          .ok (U32 btl_raw) ⟨false, 1, U16 shb.version_minor, []⟩
            (shb.section_length % 18446744073709551616))) ∧
    (shb.magic = 0x4D3C2B1A →
      MIN_SHB_SIZE ≤ GUINT32_SWAP_LE_BE btl_raw →
      GUINT32_SWAP_LE_BE btl_raw ≤ MAX_BLOCK_SIZE →
      ¬(GUINT16_SWAP_LE_BE shb.version_major = 1 ∧
          (GUINT16_SWAP_LE_BE shb.version_minor = 0 ∨
            GUINT16_SWAP_LE_BE shb.version_minor = 2)) →
      pcapng_read_section_header_block btl_raw shb optLoop =
        .err .unsupported) := by
  refine ⟨?_, ?_⟩
  · intro hm hmin hmax
    constructor
    · intro hver
      unfold pcapng_read_section_header_block
      simp only [hm]
      norm_num
      rw [if_neg (by omega), if_neg (by omega), if_pos (by tauto)]
    · intro h1 h2 hopt
      unfold pcapng_read_section_header_block
      simp only [hm]
      norm_num
      rw [if_neg (by omega), if_neg (by omega), if_neg (by tauto), hopt]
      simp [h1]
  · intro hm hmin hmax hver
    unfold pcapng_read_section_header_block
    simp only [hm]
    norm_num
    push_neg at hver
    rw [if_neg (by omega), if_neg (by omega), if_pos hver]

/-- Witness for C8 amended: version 1.5 is rejected as unsupported while
versions 1.0 and 1.2 are accepted from otherwise identical headers. -/
theorem C8_amended_version_check_witness :
    pcapng_read_section_header_block 28 ⟨0x1A2B3C4D, 1, 5, 0⟩ (.ok ()) =
      .err .unsupported ∧
    pcapng_read_section_header_block 28 ⟨0x1A2B3C4D, 1, 0, 0⟩ (.ok ()) =
      .ok 28 ⟨false, 1, 0, []⟩ 0 ∧
    pcapng_read_section_header_block 28 ⟨0x1A2B3C4D, 1, 2, 0⟩ (.ok ()) =
      .ok 28 ⟨false, 1, 2, []⟩ 0 :=
  ⟨((C8_amended_version_check 28 ⟨0x1A2B3C4D, 1, 5, 0⟩ (.ok ())).1 rfl
      (by decide) (by decide)).1 (by decide),
   ((C8_amended_version_check 28 ⟨0x1A2B3C4D, 1, 0, 0⟩ (.ok ())).1 rfl
      (by decide) (by decide)).2 (by decide) (by decide) rfl,
   ((C8_amended_version_check 28 ⟨0x1A2B3C4D, 1, 2, 0⟩ (.ok ())).1 rfl
      (by decide) (by decide)).2 (by decide) (by decide) rfl⟩

/-- C6: for every interface description block whose tsresol option has
length 1, time_units_per_second is set to base^exponent where the base is 2
if bit 7 of the option byte is set and 10 otherwise and the exponent is the
low 7 bits, provided the exponent is in range (base-10 exponent below 20,
base-2 exponent below 64); an out-of-range exponent sets
time_units_per_second to the maximum 64-bit value instead of failing. -/
theorem C6_tsresol_decoding (option_length b prev : Nat)
    (hlen : option_length = 1) (hb : b < 256) :
    (128 ≤ b → b % 128 < 64 →
      pcapng_read_if_tsresol_option option_length b prev = 2 ^ (b % 128)) ∧
    (b < 128 → b < 20 →
      pcapng_read_if_tsresol_option option_length b prev = 10 ^ b) ∧
    (128 ≤ b → 64 ≤ b % 128 →
      pcapng_read_if_tsresol_option option_length b prev = G_MAXUINT64) ∧
    (b < 128 → 20 ≤ b →
      pcapng_read_if_tsresol_option option_length b prev = G_MAXUINT64) := by
  subst hlen
  unfold pcapng_read_if_tsresol_option
  have hbmod : b % 256 = b := Nat.mod_eq_of_lt hb
  refine ⟨?_, ?_, ?_, ?_⟩
  · intro h1 h2
    simp [hbmod, show b / 128 % 2 = 1 from by omega, h2]
  · intro h1 h2
    simp [hbmod, Nat.mod_eq_of_lt h1,
      show ¬(b / 128 % 2 = 1) from by omega, h2]
  · intro h1 h2
    simp [hbmod, show b / 128 % 2 = 1 from by omega,
      show ¬(b % 128 < 64) from by omega]
  · intro h1 h2
    simp [hbmod, Nat.mod_eq_of_lt h1,
      show ¬(b / 128 % 2 = 1) from by omega, show ¬(b < 20) from by omega]

/-- Witness for C6 at the boundary bytes: base-2 exponent 63 scales to
2^63, base-10 exponent 20 saturates to the maximum. -/
theorem C6_tsresol_decoding_witness :
    pcapng_read_if_tsresol_option 1 191 1000000 = 2 ^ 63 ∧
    pcapng_read_if_tsresol_option 1 20 1000000 = G_MAXUINT64 :=
  ⟨(C6_tsresol_decoding 1 191 1000000 rfl (by decide)).1 (by decide)
      (by decide),
   (C6_tsresol_decoding 1 20 1000000 rfl (by decide)).2.2.2 (by decide)
      (by decide)⟩

/-- Default interface value used only as the unreachable fallback of
List.getD in statement phrasing. -/
def defaultIface : InterfaceInfo := ⟨0, 0, 0, 0, 0⟩

/-- Timestamp assembled from the decoded packet fixed part,
(ts_high shifted left 32) or-ed with ts_low. -/
def packetTs (si : SectionInfo) (pf : PacketFixed) : Nat :=
  (decodePacketFixed si.byte_swapped pf).ts_high * 4294967296 +
    (decodePacketFixed si.byte_swapped pf).ts_low

/-- Interface entry a packet block refers to, looked up by its decoded
interface id. -/
def packetIface (si : SectionInfo) (pf : PacketFixed) : InterfaceInfo :=
  si.interfaces.getD (decodePacketFixed si.byte_swapped pf).interface_id
    defaultIface

/-- Helper: an out-of-range interface id makes pcapng_read_packet_block
fail with WTAP_ERR_BAD_FILE (the checks that can fire before the
interface-id check also report WTAP_ERR_BAD_FILE). -/
theorem packet_iface_oob_badFile (bh : BlockHeader) (si : SectionInfo)
    (pf : PacketFixed) (msfe : Int → Nat) (phl : Option Nat)
    (rest : Except WtapErr Unit)
    (h : (decodePacketFixed si.byte_swapped pf).interface_id ≥
      si.interfaces.length) :
    pcapng_read_packet_block bh si pf msfe phl rest = .error .badFile := by
  cases pf with
  | epb f =>
    unfold pcapng_read_packet_block
    dsimp only
    split
    · rfl
    · split
      · rfl
      · rfl
  | pb f =>
    unfold pcapng_read_packet_block
    dsimp only
    split
    · rfl
    · split
      · rfl
      · rfl

/-- Helper: inversion of a successful pcapng_read_packet_block, recovering
the in-range interface id, the pseudo-header length, and the exact record
the reader built. -/
theorem packet_read_ok_inversion (bh : BlockHeader) (si : SectionInfo)
    (pf : PacketFixed) (msfe : Int → Nat) (phl : Option Nat)
    (rest : Except WtapErr Unit) (r : PacketRec)
    (hok : pcapng_read_packet_block bh si pf msfe phl rest = .ok r) :
    (decodePacketFixed si.byte_swapped pf).interface_id <
      si.interfaces.length ∧
    ∃ phl0, phl = some phl0 ∧
      r = { interface_id := (decodePacketFixed si.byte_swapped pf).interface_id
            pkt_encap := (packetIface si pf).wtap_encap
            ts_secs := toSigned64 (packetTs si pf /
              (packetIface si pf).time_units_per_second)
            ts_nsecs := toSigned32 (packetTs si pf %
              (packetIface si pf).time_units_per_second * 1000000000 %
              18446744073709551616 /
              (packetIface si pf).time_units_per_second)
            caplen := sub32 (decodePacketFixed si.byte_swapped pf).cap_len phl0
            len := sub32 (decodePacketFixed si.byte_swapped pf).packet_len
              phl0 } := by
  cases pf with
  | epb f =>
    unfold pcapng_read_packet_block at hok
    dsimp only at hok
    split at hok
    · exact absurd hok (by simp)
    · split at hok
      · exact absurd hok (by simp)
      · split at hok
        · exact absurd hok (by simp)
        · rename_i hgt
          split at hok
          · exact absurd hok (by simp)
          · split at hok
            · exact absurd hok (by simp)
            · rename_i phl0
              split at hok
              · exact absurd hok (by simp)
              · injection hok with hr
                have hlt :
                    (decodePacketFixed si.byte_swapped
                      (PacketFixed.epb f)).interface_id <
                    si.interfaces.length := by omega
                have hif : packetIface si (PacketFixed.epb f) =
                    si.interfaces.get
                      ⟨(decodePacketFixed si.byte_swapped
                          (PacketFixed.epb f)).interface_id, hlt⟩ := by
                  simp [packetIface, List.getD_eq_getElem?_getD,
                    List.getElem?_eq_getElem hlt]
                refine ⟨hlt, phl0, rfl, ?_⟩
                rw [← hr]
                simp [hif, packetTs]
  | pb f =>
    unfold pcapng_read_packet_block at hok
    dsimp only at hok
    split at hok
    · exact absurd hok (by simp)
    · split at hok
      · exact absurd hok (by simp)
      · split at hok
        · exact absurd hok (by simp)
        · rename_i hgt
          split at hok
          · exact absurd hok (by simp)
          · split at hok
            · exact absurd hok (by simp)
            · rename_i phl0
              split at hok
              · exact absurd hok (by simp)
              · injection hok with hr
                have hlt :
                    (decodePacketFixed si.byte_swapped
                      (PacketFixed.pb f)).interface_id <
                    si.interfaces.length := by omega
                have hif : packetIface si (PacketFixed.pb f) =
                    si.interfaces.get
                      ⟨(decodePacketFixed si.byte_swapped
                          (PacketFixed.pb f)).interface_id, hlt⟩ := by
                  simp [packetIface, List.getD_eq_getElem?_getD,
                    List.getElem?_eq_getElem hlt]
                refine ⟨hlt, phl0, rfl, ?_⟩
                rw [← hr]
                simp [hif, packetTs]

/-- C4: for every enhanced or obsolete packet block read in a section, an
interface_id not below the number of interfaces declared so far in that
section fails the read with a bad-file error; otherwise the returned
record's interface identifier equals the block's interface_id. -/
theorem C4_packet_interface_id (bh : BlockHeader) (si : SectionInfo)
    (pf : PacketFixed) (msfe : Int → Nat) (phl : Option Nat)
    (rest : Except WtapErr Unit) :
    ((decodePacketFixed si.byte_swapped pf).interface_id ≥
        si.interfaces.length →
      pcapng_read_packet_block bh si pf msfe phl rest = .error .badFile) ∧
    (∀ r, pcapng_read_packet_block bh si pf msfe phl rest = .ok r →
      r.interface_id = (decodePacketFixed si.byte_swapped pf).interface_id ∧
      (decodePacketFixed si.byte_swapped pf).interface_id <
        si.interfaces.length) := by
  constructor
  · exact packet_iface_oob_badFile bh si pf msfe phl rest
  · intro r hok
    obtain ⟨hlt, phl0, hphl, hr⟩ :=
      packet_read_ok_inversion bh si pf msfe phl rest r hok
    subst hr
    exact ⟨rfl, hlt⟩

/-- Witness for C4: an EPB naming interface 7 in a section with no
interfaces is rejected as bad-file. -/
theorem C4_packet_interface_id_witness :
    pcapng_read_packet_block ⟨6, 32⟩ ⟨false, 1, 0, []⟩
      (.epb ⟨7, 0, 0, 0, 0⟩) (fun _ => 0) (some 0) (.ok ()) =
      .error .badFile :=
  (C4_packet_interface_id ⟨6, 32⟩ ⟨false, 1, 0, []⟩ (.epb ⟨7, 0, 0, 0, 0⟩)
    (fun _ => 0) (some 0) (.ok ())).1 (by decide)

/-- C5 counterexample: with interface time-unit rate 2^63 (reachable from a
tsresol byte of 0xBF) and timestamp 2^63 - 1, the guint64 product
(ts mod U) * 10^9 overflows, the reader stores 1 in the nanoseconds field,
while exact integer arithmetic gives 999999999, so the claimed exact
formula does not hold on the code. -/
theorem C5_counterexample_nsec_overflow :
    pcapng_read_packet_block ⟨6, 32⟩
      ⟨false, 1, 0, [⟨0, 0, 9223372036854775808, 9, -1⟩]⟩
      (.epb ⟨0, 2147483647, 4294967295, 0, 0⟩) (fun _ => 0) (some 0)
      (.ok ()) = .ok ⟨0, 0, 0, 1, 0, 0⟩ ∧
    (9223372036854775807 % 9223372036854775808) * 1000000000 /
        9223372036854775808 = 999999999 ∧
    (1 : Int) ≠ (999999999 : Int) := by
  refine ⟨by decide, by decide, by decide⟩

/-- C5 amended: the timestamp is assembled as (ts_high shifted left 32)
or-ed with ts_low and split into seconds and nanoseconds by division in
64-bit unsigned arithmetic; whenever the products stay in range — the
quotient below 2^63 and (ts mod U) * 10^9 below 2^64 — the record's
seconds field equals ts / U and its nanoseconds field equals
(ts mod U) * 10^9 / U exactly as the claim states; larger values wrap. -/
theorem C5_amended_timestamp (bh : BlockHeader) (si : SectionInfo)
    (pf : PacketFixed) (msfe : Int → Nat) (phl : Option Nat)
    (rest : Except WtapErr Unit) (r : PacketRec)
    (hok : pcapng_read_packet_block bh si pf msfe phl rest = .ok r)
    (hno : packetTs si pf % (packetIface si pf).time_units_per_second *
      1000000000 < 18446744073709551616)
    (hsec : packetTs si pf / (packetIface si pf).time_units_per_second <
      9223372036854775808) :
    r.ts_secs = (packetTs si pf /
      (packetIface si pf).time_units_per_second : Nat) ∧
    r.ts_nsecs = (packetTs si pf %
      (packetIface si pf).time_units_per_second * 1000000000 /
      (packetIface si pf).time_units_per_second : Nat) := by
  obtain ⟨hlt, phl0, hphl, hr⟩ :=
    packet_read_ok_inversion bh si pf msfe phl rest r hok
  subst hr
  constructor
  · show toSigned64 _ = _
    unfold toSigned64
    rw [Nat.mod_eq_of_lt (by omega)]
    rw [if_pos hsec]
  · show toSigned32 _ = _
    rw [Nat.mod_eq_of_lt hno]
    have hv : packetTs si pf % (packetIface si pf).time_units_per_second *
        1000000000 / (packetIface si pf).time_units_per_second <
        1000000000 := by
      rcases Nat.eq_zero_or_pos (packetIface si pf).time_units_per_second
        with hz | hpos
      · simp [hz]
      · exact Nat.div_lt_of_lt_mul
          ((Nat.mul_lt_mul_right (by norm_num)).mpr
            (Nat.mod_lt (packetTs si pf) hpos))
    unfold toSigned32
    rw [Nat.mod_eq_of_lt (by omega)]
    rw [if_pos (by omega)]

/-- Witness for C5 amended at a microsecond-resolution interface: one
million ticks decode to 1 second and 0 nanoseconds. -/
theorem C5_amended_timestamp_witness :
    (PacketRec.mk 0 0 1 0 0 0).ts_secs =
      (packetTs ⟨false, 1, 0, [⟨0, 0, 1000000, 9, -1⟩]⟩
        (.epb ⟨0, 0, 1000000, 0, 0⟩) /
        (packetIface ⟨false, 1, 0, [⟨0, 0, 1000000, 9, -1⟩]⟩
          (.epb ⟨0, 0, 1000000, 0, 0⟩)).time_units_per_second : Nat) ∧
    (PacketRec.mk 0 0 1 0 0 0).ts_nsecs =
      (packetTs ⟨false, 1, 0, [⟨0, 0, 1000000, 9, -1⟩]⟩
        (.epb ⟨0, 0, 1000000, 0, 0⟩) %
        (packetIface ⟨false, 1, 0, [⟨0, 0, 1000000, 9, -1⟩]⟩
          (.epb ⟨0, 0, 1000000, 0, 0⟩)).time_units_per_second * 1000000000 /
        (packetIface ⟨false, 1, 0, [⟨0, 0, 1000000, 9, -1⟩]⟩
          (.epb ⟨0, 0, 1000000, 0, 0⟩)).time_units_per_second : Nat) :=
  C5_amended_timestamp ⟨6, 32⟩ ⟨false, 1, 0, [⟨0, 0, 1000000, 9, -1⟩]⟩
    (.epb ⟨0, 0, 1000000, 0, 0⟩) (fun _ => 0) (some 0) (.ok ())
    ⟨0, 0, 1, 0, 0, 0⟩ (by decide) (by decide) (by decide)

/-- C7: a simple packet block read in a section with no interfaces fails
with a bad-file error; in a section with at least one interface the
captured length equals packet_len clipped to interface 0's snap_len, a
snap_len of 0 imposing no limit. -/
theorem C7_spb_cap_len (bh : BlockHeader) (si : SectionInfo)
    (plen_raw : Nat) (msfe : Int → Nat) (phl : Option Nat)
    (rest : Except WtapErr Unit) :
    (si.interfaces.length = 0 →
      pcapng_read_simple_packet_block bh si plen_raw msfe phl rest =
        .error .badFile) ∧
    (∀ res, pcapng_read_simple_packet_block bh si plen_raw msfe phl rest =
        .ok res →
      res.packet_len = cswap32 si.byte_swapped plen_raw ∧
      res.cap_len =
        (if (si.interfaces.getD 0 defaultIface).snap_len = 0 then
          res.packet_len
        else
          min res.packet_len (si.interfaces.getD 0 defaultIface).snap_len)) := by
  constructor
  · intro h
    unfold pcapng_read_simple_packet_block
    split
    · rfl
    · rfl
  · intro res hok
    unfold pcapng_read_simple_packet_block at hok
    dsimp only at hok
    repeat' split at hok
    all_goals try exact Except.noConfusion hok
    all_goals
      injection hok with hr
    all_goals
      rw [← hr]
    all_goals
      refine ⟨rfl, ?_⟩
    all_goals
      have hlt : 0 < si.interfaces.length := by omega
    all_goals
      rw [show si.interfaces.getD 0 defaultIface =
          si.interfaces.get ⟨0, hlt⟩ from by
        simp [List.getD_eq_getElem?_getD, List.getElem?_eq_getElem hlt]]
    all_goals simp_all [Nat.min_def]
    all_goals repeat' split
    all_goals omega

/-- Witness for C7: a simple packet in a section whose only interface has
snap_len 0 keeps the full packet length as captured length. -/
theorem C7_spb_cap_len_witness :
    (SpbResult.mk 100 100 ⟨0, 0, 0, 0, 100, 100⟩).packet_len =
      cswap32 false 100 ∧
    (SpbResult.mk 100 100 ⟨0, 0, 0, 0, 100, 100⟩).cap_len =
      (if ((SectionInfo.mk false 1 0
            [⟨0, 0, 1000000, 9, -1⟩]).interfaces.getD 0
            defaultIface).snap_len = 0 then
        (SpbResult.mk 100 100 ⟨0, 0, 0, 0, 100, 100⟩).packet_len
      else
        min (SpbResult.mk 100 100 ⟨0, 0, 0, 0, 100, 100⟩).packet_len
          ((SectionInfo.mk false 1 0
            [⟨0, 0, 1000000, 9, -1⟩]).interfaces.getD 0
            defaultIface).snap_len) :=
  (C7_spb_cap_len ⟨3, 116⟩ ⟨false, 1, 0, [⟨0, 0, 1000000, 9, -1⟩]⟩ 100
    (fun _ => 1000) (some 0) (.ok ())).2
    (SpbResult.mk 100 100 ⟨0, 0, 0, 0, 100, 100⟩) (by decide)

/-- C9: the write path silently drops a string option longer than 65535
bytes (the writer reports success and emits nothing), which the claim
states; but the sizer masks the length with 0xffff instead of dropping, so
at length 65537 the sizer accounts 8 bytes (4-byte option header plus one
value byte padded to 4) while the writer emits 0 bytes — the pre-computed
block total length then overstates what is written, contradicting the
requirement that the total written equal the framed length. -/
theorem C9_string_sizer_writer_mismatch :
    pcapng_write_option_string_bytes 65537 = (true, 0) ∧
    compute_shb_option_size_string 0 65537 = 8 ∧
    pcapng_write_option_string_bytes 65535 =
      (true, 4 + 65535 + 1) ∧
    compute_shb_option_size_string 0 65535 = 4 + 65535 + 1 ∧
    pcapng_write_option_string_bytes 65536 = (true, 0) ∧
    compute_shb_option_size_string 0 65536 = 0 ∧
    (8 : Nat) ≠ 0 := by
  refine ⟨by decide, by decide, by decide, by decide, by decide, by decide,
    by decide⟩

/-- C10: during sequential read an interface statistics block whose
interface id is not below the number of interfaces read so far is silently
discarded — the interface table is left unchanged and the loop continues
with the next block — while a packet block with an out-of-range interface
id fails the read with a bad-file error. -/
theorem C10_isb_out_of_range_ignored (interface_data : List (List IsbMand))
    (if_stats : IsbMand)
    (hge : interface_data.length ≤ if_stats.interface_id) :
    pcapng_read_process_isb interface_data if_stats =
      (.continueLoop, interface_data) ∧
    (∀ (bh : BlockHeader) (si : SectionInfo) (pf : PacketFixed)
        (msfe : Int → Nat) (phl : Option Nat) (rest : Except WtapErr Unit),
      (decodePacketFixed si.byte_swapped pf).interface_id ≥
        si.interfaces.length →
      pcapng_read_packet_block bh si pf msfe phl rest =
        .error .badFile) := by
  constructor
  · unfold pcapng_read_process_isb
    rw [if_pos hge]
  · intro bh si pf msfe phl rest h
    exact packet_iface_oob_badFile bh si pf msfe phl rest h

/-- Witness for C10: a statistics block for interface 7 in a file with one
interface leaves the statistics tables untouched and the loop continues. -/
theorem C10_isb_out_of_range_ignored_witness :
    pcapng_read_process_isb [[]] ⟨7, 0, 0⟩ = (.continueLoop, [[]]) :=
  (C10_isb_out_of_range_ignored [[]] ⟨7, 0, 0⟩ (by decide)).1

end Pcapng




